import Mathlib

/-!
# auto-dns: verification of the reconciliation core

Shallow embedding of the `auto-dns` reconciliation agent
(`src/ip.rs`, `src/dns.rs`, `src/main.rs`) and proofs of the
spec's claims about it.

External effects (HTTP requests to IP-echo services, Route53 API calls,
timers) are modelled by oracles: a function from the request to its
outcome.  Each embedded operation additionally returns the trace of
gateway calls or endpoints it touched, so that "no call was made" and
"exactly one call was made" are provable statements.
-/

/-! ## IPv4 addresses (`std::net::Ipv4Addr`) -/

/-- An IPv4 address: four octets. -/
structure Ipv4 where
  a : Nat
  b : Nat
  c : Nat
  d : Nat
deriving DecidableEq, Repr

/-- Splitting a character sequence on `'.'` (string splitting is done
here on the character list so that terms evaluate inside the kernel). -/
def splitOnDot : List Char → List (List Char)
  | [] => [[]]
  | c :: rest =>
    if c = '.' then [] :: splitOnDot rest
    else
      match splitOnDot rest with
      | g :: gs => (c :: g) :: gs
      | [] => [[c]]

/-- Rust `str::trim`: strip whitespace from both ends. -/
def rustTrim (s : String) : String :=
  String.mk (((s.data.dropWhile Char.isWhitespace).reverse.dropWhile
    Char.isWhitespace).reverse)

/-- One dotted-decimal octet, as parsed by Rust's `Ipv4Addr::from_str`:
non-empty, ASCII digits only, no leading zero (unless the octet is
exactly "0"), value at most 255. -/
def parseOctet (cs : List Char) : Option Nat :=
  if cs.isEmpty then none
  else if ¬ (cs.all Char.isDigit) then none
  else if 1 < cs.length ∧ cs.head? = some '0' then none
  else
    let n := cs.foldl (fun acc c => acc * 10 + (c.toNat - 48)) 0
    if n ≤ 255 then some n else none

/-- `Ipv4Addr::from_str`: exactly four octets separated by dots. -/
def parseIpv4 (s : String) : Option Ipv4 :=
  match splitOnDot s.data with
  | [oa, ob, oc, od] =>
    match parseOctet oa, parseOctet ob, parseOctet oc, parseOctet od with
    | some na, some nb, some nc, some nd => some ⟨na, nb, nc, nd⟩
    | _, _, _, _ => none
  | _ => none

/-- `Ipv4Addr::is_loopback`: 127.0.0.0/8. -/
def Ipv4.isLoopback (ip : Ipv4) : Bool := ip.a = 127

/-- `Ipv4Addr::is_private`: 10/8, 172.16/12, 192.168/16. -/
def Ipv4.isPrivate (ip : Ipv4) : Bool :=
  ip.a = 10 || (ip.a = 172 && 16 ≤ ip.b && ip.b ≤ 31) || (ip.a = 192 && ip.b = 168)

/-- 0.0.0.0/8, the non-routable "this network" block. -/
def Ipv4.isThisNetwork (ip : Ipv4) : Bool := ip.a = 0

/-! ## `src/ip.rs`: `IpDetector` -/

/-- The fixed, ordered endpoint list from `IpDetector::new`. -/
def services : List String :=
  ["https://api.ipify.org",
   "https://icanhazip.com",
   "https://ifconfig.me/ip",
   "https://checkip.amazonaws.com",
   "https://ipecho.net/plain"]

/-- Outcome of one HTTP GET against an IP-echo endpoint: the request can
fail at the network level, or produce a status code together with a body
(whose read can itself fail). -/
inductive HttpOutcome where
  | netErr : HttpOutcome
  | resp (status : Nat) (body : Except Unit String) : HttpOutcome

/-- `StatusCode::is_success`: 2xx. -/
def statusIsSuccess (s : Nat) : Bool := 200 ≤ s && s < 300

/-- Error cases of `IpDetector::fetch_ip_from_service`. -/
inductive FetchError where
  | requestFailed : FetchError
  | httpError (status : Nat) : FetchError
  | bodyReadFailed : FetchError
  | invalidIp (s : String) : FetchError
deriving DecidableEq

/-- `IpDetector::fetch_ip_from_service`: send the request, require a
success status, read the body, trim it, parse it as IPv4. -/
def fetch_ip_from_service : HttpOutcome → Except FetchError Ipv4
  | .netErr => .error .requestFailed
  | .resp status body =>
    if ¬ statusIsSuccess status then .error (.httpError status)
    else
      match body with
      | .error _ => .error .bodyReadFailed
      | .ok text =>
        match parseIpv4 (rustTrim text) with
        | some ip => .ok ip
        | none => .error (.invalidIp (rustTrim text))

/-- The endpoint loop of `IpDetector::get_public_ip`, over an explicit
endpoint list; also returns the list of endpoints actually invoked,
in order. -/
def detect_loop (net : String → HttpOutcome) : List String → Except Unit Ipv4 × List String
  | [] => (.error (), [])
  | s :: rest =>
    match fetch_ip_from_service (net s) with
    | .ok ip => (.ok ip, [s])
    | .error _ =>
      let r := detect_loop net rest
      (r.1, s :: r.2)

/-- `IpDetector::get_public_ip`: run the loop over the fixed service
list; `.error ()` is the final "Failed to detect public IP from any
service" bailout. -/
def get_public_ip (net : String → HttpOutcome) : Except Unit Ipv4 × List String :=
  detect_loop net services

/-! ## `src/dns.rs`: `DnsUpdater` -/

/-- Rust `str::trim_end_matches('.')`: strip every trailing dot. -/
def trimEndDot (s : String) : String :=
  String.mk ((s.data.reverse.dropWhile (fun c => c = '.')).reverse)

/-- A Route53 resource record (`ResourceRecord`): a single value string. -/
structure ResourceRecord where
  value : String
deriving DecidableEq, Repr

/-- Record type (`RrType`): A, or any of the other variants. -/
inductive RrType where
  | a : RrType
  | other : RrType
deriving DecidableEq, Repr

/-- A Route53 record set (`ResourceRecordSet`). -/
structure ResourceRecordSet where
  name : String
  rrType : RrType
  resourceRecords : List ResourceRecord
deriving DecidableEq, Repr

/-- Outcome of `list_resource_record_sets` for a zone: the API call can
fail, or return the zone's record sets. -/
inductive ListOutcome where
  | listErr : ListOutcome
  | ok (sets : List ResourceRecordSet) : ListOutcome

/-- Error cases of `DnsUpdater::get_current_record_ip`. -/
inductive ReadError where
  | listFailed : ReadError
  | invalidIp (value : String) : ReadError
  | noRecordFound : ReadError
deriving DecidableEq, Repr

/-- The name/type match test in the scan loop of
`get_current_record_ip`: trailing-dot-normalized exact name equality
and record type A. -/
def recordMatches (recordName : String) (rs : ResourceRecordSet) : Bool :=
  trimEndDot rs.name = trimEndDot recordName && rs.rrType = RrType.a

/-- The scan loop of `get_current_record_ip` over the listed record
sets: on a name/type match, take the first value if there is one and
parse it (returning from the whole function); a matching set with no
values falls through to the next set; exhaustion is the
"No A record found" bailout. -/
def record_scan (recordName : String) : List ResourceRecordSet → Except ReadError Ipv4
  | [] => .error .noRecordFound
  | rs :: rest =>
    if recordMatches recordName rs then
      match rs.resourceRecords.head? with
      | some firstRecord =>
        match parseIpv4 firstRecord.value with
        | some ip => .ok ip
        | none => .error (.invalidIp firstRecord.value)
      | none => record_scan recordName rest
    else record_scan recordName rest

/-- `DnsUpdater::get_current_record_ip`: list the zone's record sets
(a failed call is the `listFailed` error), then scan them. -/
def get_current_record_ip (listing : ListOutcome) (recordName : String) :
    Except ReadError Ipv4 :=
  match listing with
  | .listErr => .error .listFailed
  | .ok sets => record_scan recordName sets

/-- Trailing-dot normalization in `DnsUpdater::update_record`: append a
dot unless the name already ends with one (`record_name.ends_with('.')`). -/
def normalizeRecordName (name : String) : String :=
  if name.data.getLast? = some '.' then name else name ++ "."

/-! ### `DnsUpdater::wait_for_change` -/

/-- `MAX_ATTEMPTS` in `wait_for_change`. -/
def MAX_ATTEMPTS : Nat := 60

/-- The sleep between polls, in seconds (`Duration::from_secs(5)`). -/
def POLL_INTERVAL_SECS : Nat := 5

/-- `ChangeStatus` as observed by the poll loop: the provider's
"in sync" status, "pending", or any unrecognized variant. -/
inductive ChangeStatus where
  | insync : ChangeStatus
  | pending : ChangeStatus
  | other : ChangeStatus
deriving DecidableEq, Repr

/-- Outcome of one `get_change` poll: the call can fail, return a
response without change info, or report a status. -/
inductive PollOutcome where
  | err : PollOutcome
  | noInfo : PollOutcome
  | status : ChangeStatus → PollOutcome
deriving DecidableEq, Repr

/-- Result of `wait_for_change`. -/
inductive WaitResult where
  | propagated : WaitResult
  | timedOut : WaitResult
  | gatewayErr : WaitResult
deriving DecidableEq, Repr

/-- The poll loop of `wait_for_change`; `poll i` is the outcome of the
`(i+1)`-th `get_change` call.  The source counts `attempts` up from 0
and bails out once `attempts >= MAX_ATTEMPTS`; here the counter is the
equivalent remaining budget `remaining = MAX_ATTEMPTS - attempts`, so
the source's `attempts + 1 >= MAX_ATTEMPTS` test is `remaining ≤ 1`.
Returns the result and the number of polls performed.  A failed call
propagates as `gatewayErr` via `?`; `Insync` returns `propagated`; any
other outcome (`Pending`, an unrecognized status, or a response without
change info) consumes one attempt and continues. -/
def wait_loop (poll : Nat → PollOutcome) (i : Nat) : Nat → WaitResult × Nat
  | 0 => match poll i with
    | .err => (.gatewayErr, 1)
    | .status .insync => (.propagated, 1)
    | _ => (.timedOut, 1)
  | 1 => match poll i with
    | .err => (.gatewayErr, 1)
    | .status .insync => (.propagated, 1)
    | _ => (.timedOut, 1)
  | remaining + 2 => match poll i with
    | .err => (.gatewayErr, 1)
    | .status .insync => (.propagated, 1)
    | _ =>
      let r := wait_loop poll (i + 1) (remaining + 1)
      (r.1, r.2 + 1)

/-- `DnsUpdater::wait_for_change`: the poll loop started with the full
attempt budget (`attempts = 0`). -/
def wait_for_change (poll : Nat → PollOutcome) : WaitResult × Nat :=
  wait_loop poll 0 MAX_ATTEMPTS

/-! ## `src/main.rs`: the reconciliation cycle and the scheduler -/

/-- A configured record (`config::DnsRecord`). -/
structure DnsRecord where
  name : String
  hosted_zone_id : String
  ttl : Int
deriving DecidableEq, Repr

/-- What `get_current_record_ip` produced for one record, as seen by the
reconciler: a value, or one of the two failure shapes (absence vs. a
provider/parse error) — both failure shapes reach `run_update` as the
same `Err` and are handled by its `Err` arm. -/
inductive ReadResult where
  | found (ip : Ipv4) : ReadResult
  | notFound : ReadResult
  | gatewayErr : ReadResult
deriving DecidableEq, Repr

/-- Per-record gateway behavior for one cycle: the read outcome, and
whether an `update_record` call, if made, succeeds. -/
structure RecBehavior where
  read : ReadResult
  upsertOk : Bool
deriving DecidableEq, Repr

/-- A provider gateway call issued during a cycle. -/
inductive GatewayCall where
  | read (zone name : String) : GatewayCall
  | upsert (zone name : String) (ip : Ipv4) (ttl : Int) : GatewayCall
deriving DecidableEq, Repr

/-- Whether a gateway call is an `update_record` (write) call. -/
def GatewayCall.isWrite : GatewayCall → Bool
  | .read _ _ => false
  | .upsert _ _ _ _ => true

/-- Per-record outcome logged by `run_update`. -/
inductive RecOutcome where
  | unchanged : RecOutcome
  | updated : RecOutcome
  | created : RecOutcome
deriving DecidableEq, Repr

/-- The body of the record loop in `run_update` for one record:
match on `get_current_record_ip`; on `Ok`, compare with the detected IP
and update (with `?`) only on mismatch; on `Err` (absence or gateway
error alike), log and update (with `?`).  Returns the record's outcome
(`.error ()` is a failed `update_record` propagating via `?`) and the
gateway calls made. -/
def processRecord (current_ip : Ipv4) (r : DnsRecord) (b : RecBehavior) :
    Except Unit RecOutcome × List GatewayCall :=
  let readCall := GatewayCall.read r.hosted_zone_id r.name
  let upsertCall :=
    GatewayCall.upsert r.hosted_zone_id (normalizeRecordName r.name) current_ip r.ttl
  match b.read with
  | .found dns_ip =>
    if dns_ip = current_ip then (.ok .unchanged, [readCall])
    else if b.upsertOk then (.ok .updated, [readCall, upsertCall])
    else (.error (), [readCall, upsertCall])
  | _ =>
    if b.upsertOk then (.ok .created, [readCall, upsertCall])
    else (.error (), [readCall, upsertCall])

/-- The record loop of `run_update`: records are processed in configured
order; a record whose `update_record` fails propagates the error with
`?`, ending the loop (and the cycle) there. -/
def run_update_loop (current_ip : Ipv4) :
    List (DnsRecord × RecBehavior) → Except Unit Unit × List GatewayCall
  | [] => (.ok (), [])
  | (r, b) :: rest =>
    match processRecord current_ip r b with
    | (.ok _, calls) =>
      let t := run_update_loop current_ip rest
      (t.1, calls ++ t.2)
    | (.error e, calls) => (.error e, calls)

/-- `run_update`: detect the public IP (`?` on total detection failure,
in which case no record is touched), then run the record loop. -/
def run_update (detected : Option Ipv4) (records : List (DnsRecord × RecBehavior)) :
    Except Unit Unit × List GatewayCall :=
  match detected with
  | none => (.error (), [])
  | some current_ip => run_update_loop current_ip records

/-! ### `run_continuous` -/

/-- What one tick of the `run_continuous` loop produced: the cycle ran
and succeeded, or it ran, failed, and its error was logged. -/
inductive CycleEvent where
  | succeeded (cycle : Nat) : CycleEvent
  | errorLogged (cycle : Nat) : CycleEvent
deriving DecidableEq, Repr

/-- The body of the `run_continuous` loop at tick `n`, over an oracle
giving each cycle's result: `if let Err(e) = run_update(...)` logs the
error; either way the loop falls through to the next tick. -/
def run_cycle_tick (cycleResult : Nat → Except Unit Unit) (n : Nat) : CycleEvent :=
  match cycleResult n with
  | .ok _ => .succeeded n
  | .error _ => .errorLogged n

/-- The first `n` ticks of `run_continuous`: each tick unconditionally
runs one cycle and appends its event — the loop has no exit path, so
tick `n` always follows tick `n - 1`. -/
def run_continuous_trace (cycleResult : Nat → Except Unit Unit) : Nat → List CycleEvent
  | 0 => []
  | n + 1 => run_continuous_trace cycleResult n ++ [run_cycle_tick cycleResult n]

/-! ## The dry-run (`--no-aws`) simulated gateway

The repository's integration tests (`tests/integration_tests.rs`,
`test_no_aws_flag`) exercise a `--no-aws` dry-run mode whose
implementation is not among the sources here; it is modelled from the
spec below. -/

/-- An externally visible effect of a simulated gateway operation. -/
inductive SimEffect where
  | networkAccess : SimEffect
  | logMsg (msg : String) : SimEffect
deriving DecidableEq, Repr

/-- Whether an effect is a network access. -/
def SimEffect.isNetworkAccess : SimEffect → Bool
  | .networkAccess => true
  | .logMsg _ => false

/-- Modelled from the spec: the fixed sentinel address the simulated
gateway's read always returns, "deliberately different from any real
detected IP" — taken from the non-routable 0.0.0.0/8 block, which no
IP-echo service can report as a caller's public address. -/
def dryRunSentinel : Ipv4 := ⟨0, 0, 0, 0⟩

/-- Modelled from the spec and from the repository's own test on
detected addresses (`ip.rs` asserts a detected IP is neither loopback
nor private): a "real detected IP" is a publicly routable address —
not in 0.0.0.0/8, not loopback, not private. -/
def realDetectedIp (ip : Ipv4) : Prop :=
  ip.isThisNetwork = false ∧ ip.isLoopback = false ∧ ip.isPrivate = false

/-- Modelled from the spec: the simulated gateway's `readCurrentIp`
(missing from the sources; only its tests are present).  On every call
— `call` is the call index — it returns the fixed sentinel and logs,
performing no network I/O. -/
def no_aws_read_current_record_ip (call : Nat) :
    Except Unit Ipv4 × List SimEffect :=
  (.ok dryRunSentinel,
   [.logMsg ("[DRY RUN] read of current record value, call " ++ toString call)])

/-- Modelled from the spec: the simulated gateway's `upsertRecord`
(missing from the sources; only its tests are present).  It always
succeeds and only logs the change that would have occurred, performing
no network I/O. -/
def no_aws_update_record (zone name : String) (ip : Ipv4) (ttl : Int) :
    Except Unit Unit × List SimEffect :=
  (.ok (),
   [.logMsg ("[DRY RUN] Would update DNS record " ++ name ++ " in zone " ++ zone
      ++ " to " ++ toString ip.a ++ "." ++ toString ip.b ++ "."
      ++ toString ip.c ++ "." ++ toString ip.d
      ++ " (TTL " ++ toString ttl ++ "); AWS Route53 API call would be made")])

/-! ## Helper lemmas -/

/-- Whether the reconciler's compare step calls for a write: a read
value differing from the detected IP, or a failed/absent read. -/
def needsUpsert (current_ip : Ipv4) : ReadResult → Bool
  | .found dns_ip => if dns_ip = current_ip then false else true
  | .notFound => true
  | .gatewayErr => true

lemma wait_loop_never_insync (poll : Nat → PollOutcome)
    (h : ∀ i, poll i = .noInfo ∨ poll i = .status .pending ∨ poll i = .status .other) :
    ∀ remaining i, 1 ≤ remaining → wait_loop poll i remaining = (.timedOut, remaining) := by
  intro remaining
  induction remaining with
  | zero => intro i h1; omega
  | succ n ih =>
    intro i _
    match n, ih with
    | 0, _ =>
      rcases h i with hp | hp | hp <;> simp [wait_loop, hp]
    | m + 1, ih =>
      have hr := ih (i + 1) (by omega)
      rcases h i with hp | hp | hp <;> simp [wait_loop, hp, hr]

/-! ## Claims -/

/-- C8: `wait_for_change` polls on a fixed 5-second interval up to a
ceiling of 60 attempts and always terminates: the status sequence
pending, pending, insync returns `propagated` after exactly 3 polls,
and any poll sequence that never reports "in sync" (all pending,
unrecognized, or missing change info) returns `timedOut` after exactly
the attempt ceiling. -/
theorem wait_for_change_bounded_polling :
    MAX_ATTEMPTS = 60 ∧ POLL_INTERVAL_SECS = 5 ∧
    wait_for_change
      (fun i => if i < 2 then .status .pending else .status .insync)
      = (.propagated, 3) ∧
    ∀ poll : Nat → PollOutcome,
      (∀ i, poll i = .noInfo ∨ poll i = .status .pending ∨ poll i = .status .other) →
      wait_for_change poll = (.timedOut, MAX_ATTEMPTS)
    := by
  refine ⟨rfl, rfl, by decide, ?_⟩
  intro poll h
  exact wait_loop_never_insync poll h MAX_ATTEMPTS 0 (by decide)

/-- C8 witness: the theorem instantiated at the all-pending poll
sequence. -/
theorem wait_for_change_bounded_polling_witness :
    wait_for_change (fun _ => PollOutcome.status .pending) = (.timedOut, 60) := by
  have h := wait_for_change_bounded_polling.2.2.2
    (fun _ => PollOutcome.status .pending) (fun _ => Or.inr (Or.inl rfl))
  simpa [MAX_ATTEMPTS] using h

/-- C3: for a record whose read succeeds with a value equal to the
freshly detected IP, the reconciler's outcome is `unchanged` and it
issues zero write (`update_record`) calls for that record. -/
theorem reconcile_unchanged_zero_writes (current_ip : Ipv4) (r : DnsRecord)
    (b : RecBehavior) (h : b.read = .found current_ip) :
    processRecord current_ip r b
      = (.ok .unchanged, [.read r.hosted_zone_id r.name]) ∧
    ∀ c ∈ (processRecord current_ip r b).2, c.isWrite = false := by
  have hp : processRecord current_ip r b
      = (.ok .unchanged, [.read r.hosted_zone_id r.name]) := by
    simp [processRecord, h]
  refine ⟨hp, ?_⟩
  intro c hc
  rw [hp] at hc
  simp at hc
  simp [hc, GatewayCall.isWrite]

/-- C3 witness: the theorem instantiated at a concrete record whose DNS
value already equals the detected IP. -/
theorem reconcile_unchanged_zero_writes_witness :
    processRecord ⟨203, 0, 113, 1⟩ ⟨"home.example.com", "Z1", 300⟩
        ⟨.found ⟨203, 0, 113, 1⟩, true⟩
      = (.ok .unchanged, [.read "Z1" "home.example.com"]) :=
  (reconcile_unchanged_zero_writes ⟨203, 0, 113, 1⟩ ⟨"home.example.com", "Z1", 300⟩
    ⟨.found ⟨203, 0, 113, 1⟩, true⟩ rfl).1

/-- C4: for a record whose read reports absence or a gateway error, the
reconciler makes exactly one `update_record` call, carrying the detected
IP and the record's configured TTL; on a failed upsert the error is
surfaced (the outcome is the propagated error) with no retry — the call
trace is the same single write whether the upsert succeeds or fails. -/
theorem reconcile_absent_single_upsert (current_ip : Ipv4) (r : DnsRecord)
    (b : RecBehavior) (h : b.read = .notFound ∨ b.read = .gatewayErr) :
    (processRecord current_ip r b).2
      = [.read r.hosted_zone_id r.name,
         .upsert r.hosted_zone_id (normalizeRecordName r.name) current_ip r.ttl] ∧
    ((processRecord current_ip r b).2.countP (fun c => c.isWrite)) = 1 ∧
    (processRecord current_ip r b).1
      = (if b.upsertOk then .ok .created else .error ()) := by
  have hp : (processRecord current_ip r b)
      = (if b.upsertOk then .ok .created else .error (),
         [.read r.hosted_zone_id r.name,
          .upsert r.hosted_zone_id (normalizeRecordName r.name) current_ip r.ttl]) := by
    rcases h with h | h <;> rcases hb : b.upsertOk <;> simp [processRecord, h, hb]
  refine ⟨?_, ?_, ?_⟩ <;> rw [hp]
  simp [List.countP, List.countP.go, GatewayCall.isWrite]

/-- C4 witness: the theorem instantiated at a concrete absent record
whose upsert fails: a single write with the detected IP and TTL, and
the record's outcome is the error. -/
theorem reconcile_absent_single_upsert_witness :
    (processRecord ⟨203, 0, 113, 5⟩ ⟨"home.example.com", "Z1", 300⟩
        ⟨.notFound, false⟩).2
      = [.read "Z1" "home.example.com",
         .upsert "Z1" "home.example.com." ⟨203, 0, 113, 5⟩ 300] ∧
    (processRecord ⟨203, 0, 113, 5⟩ ⟨"home.example.com", "Z1", 300⟩
        ⟨.notFound, false⟩).1 = .error () := by
  have h := reconcile_absent_single_upsert ⟨203, 0, 113, 5⟩
    ⟨"home.example.com", "Z1", 300⟩ ⟨.notFound, false⟩ (Or.inl rfl)
  refine ⟨?_, ?_⟩
  · rw [h.1]; rfl
  · rw [h.2.2]; rfl


lemma processRecord_ok_of_upsertOk (current_ip : Ipv4) (r : DnsRecord)
    (b : RecBehavior) (hb : b.upsertOk = true) :
    ∃ o calls, processRecord current_ip r b = (.ok o, calls) ∧
      GatewayCall.read r.hosted_zone_id r.name ∈ calls := by
  rcases hread : b.read with ip' | _ | _
  · by_cases hip : ip' = current_ip
    · exact ⟨.unchanged, [.read r.hosted_zone_id r.name],
        by simp [processRecord, hread, hip], by simp⟩
    · exact ⟨.updated,
        [.read r.hosted_zone_id r.name,
         .upsert r.hosted_zone_id (normalizeRecordName r.name) current_ip r.ttl],
        by simp [processRecord, hread, hip, hb], by simp⟩
  · exact ⟨.created,
      [.read r.hosted_zone_id r.name,
       .upsert r.hosted_zone_id (normalizeRecordName r.name) current_ip r.ttl],
      by simp [processRecord, hread, hb], by simp⟩
  · exact ⟨.created,
      [.read r.hosted_zone_id r.name,
       .upsert r.hosted_zone_id (normalizeRecordName r.name) current_ip r.ttl],
      by simp [processRecord, hread, hb], by simp⟩

lemma run_update_loop_all_ok (current_ip : Ipv4) :
    ∀ recs : List (DnsRecord × RecBehavior), (∀ p ∈ recs, p.2.upsertOk = true) →
      (run_update_loop current_ip recs).1 = .ok () ∧
      ∀ p ∈ recs, GatewayCall.read p.1.hosted_zone_id p.1.name
        ∈ (run_update_loop current_ip recs).2 := by
  intro recs
  induction recs with
  | nil => intro _; exact ⟨rfl, by simp⟩
  | cons p rest ih =>
    intro h
    obtain ⟨r, b⟩ := p
    have hb : b.upsertOk = true := h (r, b) (List.mem_cons_self _ _)
    have hrest := ih (fun q hq => h q (List.mem_cons_of_mem _ hq))
    obtain ⟨o, calls, hpr, hmem⟩ := processRecord_ok_of_upsertOk current_ip r b hb
    constructor
    · simp [run_update_loop, hpr, hrest.1]
    · intro q hq
      rcases List.mem_cons.mp hq with hq | hq
      · subst hq
        simp only [run_update_loop, hpr, List.mem_append]
        exact Or.inl hmem
      · simp only [run_update_loop, hpr, List.mem_append]
        exact Or.inr (hrest.2 q hq)

lemma run_update_loop_write_failure_aborts (current_ip : Ipv4)
    (r : DnsRecord) (b : RecBehavior)
    (hneed : needsUpsert current_ip b.read = true) (hfail : b.upsertOk = false) :
    ∀ l1 : List (DnsRecord × RecBehavior), (∀ p ∈ l1, p.2.upsertOk = true) →
      ∀ l2, run_update_loop current_ip (l1 ++ (r, b) :: l2)
          = run_update_loop current_ip (l1 ++ [(r, b)]) ∧
        (run_update_loop current_ip (l1 ++ (r, b) :: l2)).1 = .error () := by
  have hpr : processRecord current_ip r b
      = (.error (), [.read r.hosted_zone_id r.name,
                     .upsert r.hosted_zone_id (normalizeRecordName r.name)
                       current_ip r.ttl]) := by
    rcases hread : b.read with ip' | _ | _
    · have hip : ¬ (ip' = current_ip) := by
        intro hc
        rw [hread] at hneed
        simp [needsUpsert, hc] at hneed
      simp [processRecord, hread, hip, hfail]
    · simp [processRecord, hread, hfail]
    · simp [processRecord, hread, hfail]
  intro l1
  induction l1 with
  | nil =>
    intro _ l2
    constructor
    · simp [run_update_loop, hpr]
    · simp [run_update_loop, hpr]
  | cons p rest ih =>
    intro h l2
    obtain ⟨r', b'⟩ := p
    have hb' : b'.upsertOk = true := h _ (List.mem_cons_self _ _)
    have hrest := ih (fun q hq => h q (List.mem_cons_of_mem _ hq)) l2
    obtain ⟨o, calls, hpr', _⟩ := processRecord_ok_of_upsertOk current_ip r' b' hb'
    constructor
    · simp only [List.cons_append, run_update_loop, hpr', List.append_eq]
      rw [hrest.1]
    · simp only [List.cons_append, run_update_loop, hpr', List.append_eq]
      exact hrest.2

/-- C1 (amended): a gateway READ failure on one record is scoped to that
record — the cycle attempts an upsert for it and, when upserts succeed,
goes on to perform the read step for every record in the list, whatever
the per-record read outcomes; a gateway WRITE (`update_record`) failure,
however, propagates out of the record loop with `?`, so the cycle
produces exactly the calls of the records up to and including the
failing one and no subsequent record is processed. -/
theorem run_update_failure_scoping (current_ip : Ipv4)
    (recs : List (DnsRecord × RecBehavior)) :
    ((∀ p ∈ recs, p.2.upsertOk = true) →
      (run_update_loop current_ip recs).1 = .ok () ∧
      ∀ p ∈ recs, GatewayCall.read p.1.hosted_zone_id p.1.name
        ∈ (run_update_loop current_ip recs).2) ∧
    (∀ l1 r b l2, recs = l1 ++ (r, b) :: l2 →
      (∀ p ∈ l1, p.2.upsertOk = true) →
      needsUpsert current_ip b.read = true → b.upsertOk = false →
      run_update_loop current_ip recs = run_update_loop current_ip (l1 ++ [(r, b)]) ∧
      (run_update_loop current_ip recs).1 = .error ()) := by
  constructor
  · exact run_update_loop_all_ok current_ip recs
  · intro l1 r b l2 heq hpre hneed hfail
    subst heq
    exact run_update_loop_write_failure_aborts current_ip r b hneed hfail l1 hpre l2

/-- C1 witness: both halves of the theorem at concrete inputs — a cycle
whose first record has a read failure but a succeeding upsert still
reads the second record; a cycle whose first record has a failing upsert
stops there. -/
theorem run_update_failure_scoping_witness :
    ((run_update_loop ⟨203, 0, 113, 5⟩
        [(⟨"r1.example.com", "Z1", 300⟩, ⟨.gatewayErr, true⟩),
         (⟨"r2.example.com", "Z2", 600⟩, ⟨.found ⟨203, 0, 113, 5⟩, true⟩)]).1
      = .ok ()) ∧
    GatewayCall.read "Z2" "r2.example.com"
      ∈ (run_update_loop ⟨203, 0, 113, 5⟩
        [(⟨"r1.example.com", "Z1", 300⟩, ⟨.gatewayErr, true⟩),
         (⟨"r2.example.com", "Z2", 600⟩, ⟨.found ⟨203, 0, 113, 5⟩, true⟩)]).2 ∧
    (run_update_loop ⟨203, 0, 113, 5⟩
        [(⟨"r1.example.com", "Z1", 300⟩, ⟨.found ⟨203, 0, 113, 1⟩, false⟩),
         (⟨"r2.example.com", "Z2", 600⟩, ⟨.found ⟨203, 0, 113, 5⟩, true⟩)]).1
      = .error () := by
  have h1 := (run_update_failure_scoping ⟨203, 0, 113, 5⟩
    [(⟨"r1.example.com", "Z1", 300⟩, ⟨.gatewayErr, true⟩),
     (⟨"r2.example.com", "Z2", 600⟩, ⟨.found ⟨203, 0, 113, 5⟩, true⟩)]).1
    (by decide)
  have h2 := (run_update_failure_scoping ⟨203, 0, 113, 5⟩
    [(⟨"r1.example.com", "Z1", 300⟩, ⟨.found ⟨203, 0, 113, 1⟩, false⟩),
     (⟨"r2.example.com", "Z2", 600⟩, ⟨.found ⟨203, 0, 113, 5⟩, true⟩)]).2
    [] ⟨"r1.example.com", "Z1", 300⟩ ⟨.found ⟨203, 0, 113, 1⟩, false⟩
    [(⟨"r2.example.com", "Z2", 600⟩, ⟨.found ⟨203, 0, 113, 5⟩, true⟩)]
    rfl (by simp) (by decide) rfl
  refine ⟨h1.1, ?_, h2.2⟩
  have := h1.2 (⟨"r2.example.com", "Z2", 600⟩, ⟨.found ⟨203, 0, 113, 5⟩, true⟩)
    (by simp)
  simpa using this

/-- C1 counterexample: a concrete cycle refuting the claim as stated —
with a detected IP of 203.0.113.5, a first record whose stored value
differs and whose `update_record` fails, and a second record behind it,
the cycle ends in the propagated error having issued only the first
record's read and write; no reconciliation step is performed for the
second record. -/
theorem run_update_write_failure_halts_cycle :
    run_update (some ⟨203, 0, 113, 5⟩)
        [(⟨"r1.example.com", "Z1", 300⟩, ⟨.found ⟨203, 0, 113, 1⟩, false⟩),
         (⟨"r2.example.com", "Z2", 600⟩, ⟨.found ⟨203, 0, 113, 5⟩, true⟩)]
      = (.error (),
         [.read "Z1" "r1.example.com",
          .upsert "Z1" "r1.example.com." ⟨203, 0, 113, 5⟩ 300]) ∧
    GatewayCall.read "Z2" "r2.example.com"
      ∉ (run_update (some ⟨203, 0, 113, 5⟩)
          [(⟨"r1.example.com", "Z1", 300⟩, ⟨.found ⟨203, 0, 113, 1⟩, false⟩),
           (⟨"r2.example.com", "Z2", 600⟩,
             ⟨.found ⟨203, 0, 113, 5⟩, true⟩)]).2 := by
  refine ⟨rfl, by decide⟩

lemma run_continuous_trace_eq_map (cycleResult : Nat → Except Unit Unit) :
    ∀ n, run_continuous_trace cycleResult n
      = (List.range n).map (run_cycle_tick cycleResult) := by
  intro n
  induction n with
  | zero => rfl
  | succ m ih =>
    rw [run_continuous_trace, ih, List.range_succ, List.map_append]
    rfl

/-- C9: in continuous mode, for every assignment of per-cycle results,
the first `n` ticks always run all of cycles `0 .. n-1` in order: the
event of cycle `k` sits at position `k` of the trace whatever the other
cycles did (in particular a failure of cycle `k - 1` does not prevent
cycle `k`), a failing cycle's error is logged (it becomes an
`errorLogged` event, never an exit), and the trace of `n` ticks has
exactly `n` cycle events — the loop never stops early over a cycle
failure. -/
theorem run_continuous_failure_isolation (cycleResult : Nat → Except Unit Unit)
    (n k : Nat) (h : k < n) :
    (run_continuous_trace cycleResult n)[k]? = some (run_cycle_tick cycleResult k) ∧
    (cycleResult k = .error () →
      run_cycle_tick cycleResult k = .errorLogged k) ∧
    (run_continuous_trace cycleResult n).length = n := by
  refine ⟨?_, ?_, ?_⟩
  · rw [run_continuous_trace_eq_map, List.getElem?_map, List.getElem?_range h]
    rfl
  · intro he
    simp [run_cycle_tick, he]
  · rw [run_continuous_trace_eq_map, List.length_map, List.length_range]

/-- C9 witness: three ticks where cycle 0 fails (total IP-detection
failure) and cycle 1 succeeds; cycle 1 still runs at position 1. -/
theorem run_continuous_failure_isolation_witness :
    (run_continuous_trace (fun m => if m = 0 then .error () else .ok ()) 3)[1]?
      = some (.succeeded 1) ∧
    (run_continuous_trace (fun m => if m = 0 then .error () else .ok ()) 3)[0]?
      = some (.errorLogged 0) := by
  have h1 := run_continuous_failure_isolation
    (fun m => if m = 0 then .error () else .ok ()) 3 1 (by decide)
  have h0 := run_continuous_failure_isolation
    (fun m => if m = 0 then .error () else .ok ()) 3 0 (by decide)
  refine ⟨?_, ?_⟩
  · rw [h1.1]; rfl
  · rw [h0.1]
    rw [h0.2.1 rfl]

lemma detect_loop_all_fail (net : String → HttpOutcome) :
    ∀ l : List String, (∀ u ∈ l, ∃ e, fetch_ip_from_service (net u) = .error e) →
      detect_loop net l = (.error (), l) := by
  intro l
  induction l with
  | nil => intro _; rfl
  | cons s rest ih =>
    intro h
    obtain ⟨e, he⟩ := h s (List.mem_cons_self _ _)
    have hr := ih (fun u hu => h u (List.mem_cons_of_mem _ hu))
    simp [detect_loop, he, hr]

lemma detect_loop_err_imp (net : String → HttpOutcome) :
    ∀ l : List String, (detect_loop net l).1 = .error () →
      ∀ u ∈ l, ∃ e, fetch_ip_from_service (net u) = .error e := by
  intro l
  induction l with
  | nil => intro _ u hu; cases hu
  | cons s rest ih =>
    intro h u hu
    rcases hf : fetch_ip_from_service (net s) with e | ip
    · rcases List.mem_cons.mp hu with hu | hu
      · exact hu ▸ ⟨e, hf⟩
      · have hrest : (detect_loop net rest).1 = .error () := by
          rw [detect_loop, hf] at h
          exact h
        exact ih hrest u hu
    · rw [detect_loop, hf] at h
      cases h

lemma detect_loop_first_success (net : String → HttpOutcome) (ip : Ipv4) :
    ∀ l1 : List String, ∀ s l2,
      (∀ u ∈ l1, ∃ e, fetch_ip_from_service (net u) = .error e) →
      fetch_ip_from_service (net s) = .ok ip →
      detect_loop net (l1 ++ s :: l2) = (.ok ip, l1 ++ [s]) := by
  intro l1
  induction l1 with
  | nil =>
    intro s l2 _ hs
    simp [detect_loop, hs]
  | cons u rest ih =>
    intro s l2 h hs
    obtain ⟨e, he⟩ := h u (List.mem_cons_self _ _)
    have hr := ih s l2 (fun v hv => h v (List.mem_cons_of_mem _ hv)) hs
    simp [detect_loop, he, hr]

lemma detect_loop_ok_source (net : String → HttpOutcome) (ip : Ipv4) :
    ∀ l : List String, (detect_loop net l).1 = .ok ip →
      ∃ u ∈ l, fetch_ip_from_service (net u) = .ok ip := by
  intro l
  induction l with
  | nil => intro h; cases h
  | cons s rest ih =>
    intro h
    rcases hf : fetch_ip_from_service (net s) with e | ip'
    · rw [detect_loop, hf] at h
      obtain ⟨u, hu, hok⟩ := ih h
      exact ⟨u, List.mem_cons_of_mem _ hu, hok⟩
    · rw [detect_loop, hf] at h
      cases h
      exact ⟨s, List.mem_cons_self _ _, hf⟩

lemma detect_loop_trace_initial (net : String → HttpOutcome) :
    ∀ l : List String, (detect_loop net l).2 <+: l := by
  intro l
  induction l with
  | nil => exact List.prefix_refl _
  | cons s rest ih =>
    rcases hf : fetch_ip_from_service (net s) with e | ip
    · rw [detect_loop, hf]
      exact (List.prefix_cons_inj s).mpr ih
    · rw [detect_loop, hf]
      exact ⟨rest, rfl⟩

/-- C5: `get_public_ip` tries the fixed endpoint list strictly in order:
if every endpoint before `s` fails and `s` yields an address, the result
is that address and the invocation trace stops at `s` (later endpoints
are never contacted); the call fails if and only if every endpoint in
the chain fails; and any returned address was produced by one of the
endpoints — in the all-fail case no default or fabricated address is
returned. -/
theorem get_public_ip_chain_order (net : String → HttpOutcome) :
    ((get_public_ip net).1 = .error () ↔
      ∀ u ∈ services, ∃ e, fetch_ip_from_service (net u) = .error e) ∧
    (∀ l1 s l2 ip, services = l1 ++ s :: l2 →
      (∀ u ∈ l1, ∃ e, fetch_ip_from_service (net u) = .error e) →
      fetch_ip_from_service (net s) = .ok ip →
      get_public_ip net = (.ok ip, l1 ++ [s])) ∧
    (∀ ip, (get_public_ip net).1 = .ok ip →
      ∃ u ∈ services, fetch_ip_from_service (net u) = .ok ip) := by
  refine ⟨⟨fun h => detect_loop_err_imp net services h, fun h => ?_⟩, ?_, ?_⟩
  · rw [get_public_ip, detect_loop_all_fail net services h]
  · intro l1 s l2 ip heq h1 hs
    rw [get_public_ip, heq]
    exact detect_loop_first_success net ip l1 s l2 h1 hs
  · exact fun ip h => detect_loop_ok_source net ip services h

/-- C5 witness: the first endpoint fails, the second returns `10.0.0.1`;
the chain returns it having contacted exactly the first two endpoints.
With every endpoint failing, the chain reports total failure. -/
theorem get_public_ip_chain_order_witness :
    get_public_ip (fun u => if u = "https://icanhazip.com"
        then .resp 200 (.ok "10.0.0.1") else .netErr)
      = (.ok ⟨10, 0, 0, 1⟩,
         ["https://api.ipify.org", "https://icanhazip.com"]) ∧
    (get_public_ip (fun _ => .netErr)).1 = .error () := by
  constructor
  · exact (get_public_ip_chain_order _).2.1
      ["https://api.ipify.org"] "https://icanhazip.com"
      ["https://ifconfig.me/ip", "https://checkip.amazonaws.com",
       "https://ipecho.net/plain"] ⟨10, 0, 0, 1⟩ rfl
      (by intro u hu
          simp only [List.mem_singleton] at hu
          exact ⟨.requestFailed, by rw [hu]; rfl⟩)
      rfl
  · exact ((get_public_ip_chain_order _).1).mpr
      (fun u _ => ⟨.requestFailed, rfl⟩)

/-- C6: a single endpoint attempt succeeds if and only if the request
produced a readable response with a success (2xx) status whose body,
trimmed of surrounding whitespace, parses as an IPv4 address — and the
address returned is exactly that parse; every other outcome (network
error, non-2xx status, unreadable or unparsable body) is that
endpoint's failure, and within one `get_public_ip` call no endpoint is
ever invoked twice (failures advance the chain, they are not
retried). -/
theorem fetch_ip_success_iff (r : HttpOutcome) :
    ((∃ ip, fetch_ip_from_service r = .ok ip) ↔
      (∃ status body, r = .resp status (.ok body) ∧ statusIsSuccess status = true ∧
        (parseIpv4 (rustTrim body)).isSome = true)) ∧
    (∀ status body ip, r = .resp status (.ok body) →
      fetch_ip_from_service r = .ok ip → parseIpv4 (rustTrim body) = some ip) ∧
    (∀ net u, ((get_public_ip net).2).count u ≤ 1) := by
  refine ⟨⟨?_, ?_⟩, ?_, ?_⟩
  · rintro ⟨ip, hip⟩
    cases r with
    | netErr =>
      rw [fetch_ip_from_service] at hip
      cases hip
    | resp st body =>
      by_cases hst : statusIsSuccess st
      · cases body with
        | error e =>
          rw [fetch_ip_from_service] at hip
          simp [hst] at hip
        | ok text =>
          cases hp : parseIpv4 (rustTrim text) with
          | some ip' => exact ⟨st, text, rfl, hst, by rw [hp]; rfl⟩
          | none =>
            rw [fetch_ip_from_service] at hip
            simp [hst, hp] at hip
      · cases body with
        | error e => simp [fetch_ip_from_service, hst] at hip
        | ok text => simp [fetch_ip_from_service, hst] at hip
  · rintro ⟨st, text, heq, hsucc, hsome⟩
    subst heq
    cases hp : parseIpv4 (rustTrim text) with
    | some ip => exact ⟨ip, by simp [fetch_ip_from_service, hsucc, hp]⟩
    | none => rw [hp] at hsome; cases hsome
  · intro st text ip heq hok
    subst heq
    by_cases hst : statusIsSuccess st
    · cases hp : parseIpv4 (rustTrim text) with
      | some ip' =>
        rw [fetch_ip_from_service] at hok
        simp [hst, hp] at hok
        rw [hok]
      | none =>
        rw [fetch_ip_from_service] at hok
        simp [hst, hp] at hok
    · rw [fetch_ip_from_service] at hok
      simp [hst] at hok
  · intro net u
    have hpre := detect_loop_trace_initial net services
    have hcount := (List.IsPrefix.sublist hpre).count_le u
    have hnd : services.Nodup := by decide
    exact le_trans hcount (List.nodup_iff_count_le_one.mp hnd u)

/-- C6 witness: a 200 response whose body is an IPv4 literal with
surrounding whitespace succeeds, returning exactly the parse of the
trimmed body. -/
theorem fetch_ip_success_iff_witness :
    parseIpv4 (rustTrim " 203.0.113.5\n") = some ⟨203, 0, 113, 5⟩ :=
  (fetch_ip_success_iff (.resp 200 (.ok " 203.0.113.5\n"))).2.1
    200 " 203.0.113.5\n" ⟨203, 0, 113, 5⟩ rfl rfl

lemma record_scan_no_match (recordName : String) :
    ∀ sets : List ResourceRecordSet,
      (∀ s ∈ sets, recordMatches recordName s = false) →
      record_scan recordName sets = .error .noRecordFound := by
  intro sets
  induction sets with
  | nil => intro _; rfl
  | cons s rest ih =>
    intro h
    have hs := h s (List.mem_cons_self _ _)
    rw [record_scan, if_neg (by simp [hs])]
    exact ih (fun x hx => h x (List.mem_cons_of_mem _ hx))

lemma record_scan_first_yield (recordName : String) :
    ∀ l1 : List ResourceRecordSet, ∀ rs l2 fr rest,
      (∀ s ∈ l1, ¬(recordMatches recordName s = true ∧ s.resourceRecords ≠ [])) →
      recordMatches recordName rs = true →
      rs.resourceRecords = fr :: rest →
      record_scan recordName (l1 ++ rs :: l2)
        = (match parseIpv4 fr.value with
           | some ip => .ok ip
           | none => .error (.invalidIp fr.value)) := by
  intro l1
  induction l1 with
  | nil =>
    intro rs l2 fr rest _ hm hr
    rw [List.nil_append, record_scan, if_pos hm, hr]
    rfl
  | cons s l1' ih =>
    intro rs l2 fr rest h hm hr
    have htail := ih rs l2 fr rest
      (fun x hx => h x (List.mem_cons_of_mem _ hx)) hm hr
    by_cases hms : recordMatches recordName s = true
    · have hse : s.resourceRecords = [] := by
        by_contra hne
        exact h s (List.mem_cons_self _ _) ⟨hms, hne⟩
      rw [List.cons_append, record_scan, if_pos hms, hse]
      exact htail
    · rw [List.cons_append, record_scan, if_neg hms]
      exact htail

/-- C7: `get_current_record_ip` lists the zone's record sets (a failed
listing is its own gateway error) and scans them for a
trailing-dot-normalized exact name match of record type A.  If the
scan's matching record set (the first match carrying any value) has an
unparsable first value, the result is the malformed-value gateway error
— not `noRecordFound`; if it parses, that address is returned; and if
no record set matches the name at all, the result is `noRecordFound`. -/
theorem get_current_record_ip_semantics (recordName : String) :
    (get_current_record_ip .listErr recordName = .error .listFailed) ∧
    (∀ sets l1 rs l2 fr rest, sets = l1 ++ rs :: l2 →
      (∀ s ∈ l1, ¬(recordMatches recordName s = true ∧ s.resourceRecords ≠ [])) →
      recordMatches recordName rs = true →
      rs.resourceRecords = fr :: rest →
      parseIpv4 fr.value = none →
      get_current_record_ip (.ok sets) recordName = .error (.invalidIp fr.value)) ∧
    (∀ sets l1 rs l2 fr rest ip, sets = l1 ++ rs :: l2 →
      (∀ s ∈ l1, ¬(recordMatches recordName s = true ∧ s.resourceRecords ≠ [])) →
      recordMatches recordName rs = true →
      rs.resourceRecords = fr :: rest →
      parseIpv4 fr.value = some ip →
      get_current_record_ip (.ok sets) recordName = .ok ip) ∧
    (∀ sets, (∀ s ∈ sets, recordMatches recordName s = false) →
      get_current_record_ip (.ok sets) recordName = .error .noRecordFound) := by
  refine ⟨rfl, ?_, ?_, ?_⟩
  · intro sets l1 rs l2 fr rest heq h1 hm hr hp
    subst heq
    rw [get_current_record_ip,
      record_scan_first_yield recordName l1 rs l2 fr rest h1 hm hr, hp]
  · intro sets l1 rs l2 fr rest ip heq h1 hm hr hp
    subst heq
    rw [get_current_record_ip,
      record_scan_first_yield recordName l1 rs l2 fr rest h1 hm hr, hp]
  · intro sets h
    rw [get_current_record_ip, record_scan_no_match recordName sets h]

/-- C7 witness: a matching A record set holding the unparsable value
"bogus" produces the malformed-value error; a listing with no matching
name produces `noRecordFound`. -/
theorem get_current_record_ip_semantics_witness :
    get_current_record_ip
        (.ok [⟨"home.example.com.", .a, [⟨"bogus"⟩]⟩]) "home.example.com"
      = .error (.invalidIp "bogus") ∧
    get_current_record_ip
        (.ok [⟨"other.example.com.", .a, [⟨"203.0.113.1"⟩]⟩]) "home.example.com"
      = .error .noRecordFound := by
  constructor
  · exact (get_current_record_ip_semantics "home.example.com").2.1
      [⟨"home.example.com.", .a, [⟨"bogus"⟩]⟩] []
      ⟨"home.example.com.", .a, [⟨"bogus"⟩]⟩ [] ⟨"bogus"⟩ []
      rfl (by simp) rfl rfl rfl
  · exact (get_current_record_ip_semantics "home.example.com").2.2.2
      [⟨"other.example.com.", .a, [⟨"203.0.113.1"⟩]⟩]
      (by intro s hs
          simp only [List.mem_singleton] at hs
          subst hs
          rfl)

/-- C10: in the scan of `get_current_record_ip`, a record set matching
the requested name and type A but carrying an empty resource-records
list is silently skipped — the scan behaves exactly as if that record
set were absent from the listing — and when no matching A record set
yields a first value the operation returns the `noRecordFound`
("No A record found") error, not a malformed-value error, so an empty
matching record set is indistinguishable from an absent record. -/
theorem empty_record_set_invisible (recordName : String) :
    (∀ l1 rs l2, recordMatches recordName rs = true → rs.resourceRecords = [] →
      record_scan recordName (l1 ++ rs :: l2) = record_scan recordName (l1 ++ l2)) ∧
    (∀ sets, (∀ s ∈ sets, recordMatches recordName s = true → s.resourceRecords = []) →
      get_current_record_ip (.ok sets) recordName = .error .noRecordFound) := by
  constructor
  · intro l1 rs l2 hm he
    induction l1 with
    | nil =>
      rw [List.nil_append, List.nil_append, record_scan, if_pos hm, he]
      rfl
    | cons x l1' ih =>
      rw [List.cons_append, List.cons_append, record_scan, record_scan]
      by_cases hmx : recordMatches recordName x = true
      · rw [if_pos hmx, if_pos hmx]
        cases hx : x.resourceRecords.head? with
        | some fr => rfl
        | none => exact ih
      · rw [if_neg hmx, if_neg hmx]
        exact ih
  · intro sets h
    rw [get_current_record_ip]
    induction sets with
    | nil => rfl
    | cons s rest ih =>
      have hrest := ih (fun x hx hmx => h x (List.mem_cons_of_mem _ hx) hmx)
      by_cases hms : recordMatches recordName s = true
      · rw [record_scan, if_pos hms, h s (List.mem_cons_self _ _) hms]
        exact hrest
      · rw [record_scan, if_neg hms]
        exact hrest

/-- C10 witness: an empty matching record set ahead of a populated one
is skipped (the scan equals the scan without it), and a listing whose
only matching record set is empty reports `noRecordFound`. -/
theorem empty_record_set_invisible_witness :
    record_scan "home.example.com"
        [⟨"home.example.com.", .a, []⟩,
         ⟨"home.example.com", .a, [⟨"203.0.113.9"⟩]⟩]
      = record_scan "home.example.com"
        [⟨"home.example.com", .a, [⟨"203.0.113.9"⟩]⟩] ∧
    get_current_record_ip (.ok [⟨"home.example.com.", .a, []⟩]) "home.example.com"
      = .error .noRecordFound := by
  constructor
  · exact (empty_record_set_invisible "home.example.com").1 []
      ⟨"home.example.com.", .a, []⟩
      [⟨"home.example.com", .a, [⟨"203.0.113.9"⟩]⟩] rfl rfl
  · exact (empty_record_set_invisible "home.example.com").2
      [⟨"home.example.com.", .a, []⟩]
      (by intro s hs _
          simp only [List.mem_singleton] at hs
          subst hs
          rfl)

/-- C2: the dry-run simulated gateway's read returns the one fixed
sentinel address on every call and its upsert always succeeds while
only logging the change it would have made; neither operation performs
any network I/O, and the sentinel differs from every real (publicly
routable) detected IP, so the reconciler always perceives a mismatch. -/
theorem dry_run_gateway_spec :
    (∀ call, (no_aws_read_current_record_ip call).1 = .ok dryRunSentinel ∧
      ∀ e ∈ (no_aws_read_current_record_ip call).2, e.isNetworkAccess = false) ∧
    (∀ zone recName ip ttl,
      (no_aws_update_record zone recName ip ttl).1 = .ok () ∧
      ∀ e ∈ (no_aws_update_record zone recName ip ttl).2,
        e.isNetworkAccess = false ∧ ∃ msg, e = .logMsg msg) ∧
    (∀ ip, realDetectedIp ip → ip ≠ dryRunSentinel) := by
  refine ⟨?_, ?_, ?_⟩
  · intro call
    refine ⟨rfl, ?_⟩
    intro e he
    simp only [no_aws_read_current_record_ip, List.mem_singleton] at he
    subst he
    rfl
  · intro zone recName ip ttl
    refine ⟨rfl, ?_⟩
    intro e he
    simp only [no_aws_update_record, List.mem_singleton] at he
    subst he
    exact ⟨rfl, _, rfl⟩
  · intro ip hreal heq
    have h0 := hreal.1
    subst heq
    simp [Ipv4.isThisNetwork, dryRunSentinel] at h0

/-- C2 witness: the theorem at concrete inputs — the first two calls of
the simulated read both return the sentinel, a concrete simulated
upsert succeeds, and the sentinel differs from the realistically
detected 203.0.113.5. -/
theorem dry_run_gateway_spec_witness :
    (no_aws_read_current_record_ip 0).1 = .ok dryRunSentinel ∧
    (no_aws_read_current_record_ip 1).1 = .ok dryRunSentinel ∧
    (no_aws_update_record "Z1" "home.example.com" ⟨203, 0, 113, 5⟩ 300).1
      = .ok () ∧
    (⟨203, 0, 113, 5⟩ : Ipv4) ≠ dryRunSentinel :=
  ⟨(dry_run_gateway_spec.1 0).1,
   (dry_run_gateway_spec.1 1).1,
   (dry_run_gateway_spec.2.1 "Z1" "home.example.com" ⟨203, 0, 113, 5⟩ 300).1,
   dry_run_gateway_spec.2.2 ⟨203, 0, 113, 5⟩ (by refine ⟨?_, ?_, ?_⟩ <;> rfl)⟩
